import Mathlib

/-!
Shallow embedding of the `pupper` crate: a Sony PS3 PUP (PlayStation Update
Package) encoder/decoder.  Bytes are modelled as `Nat` values (< 256 whenever
they come from a real buffer); `u64`/`u32` fields are `Nat`, with truncation
made explicit where the source serializes them (`to_be_bytes`).  `usize`
additions that the source marks `[may_panic(Add)]` are modelled as unbounded
`Nat` addition.  Fallible conversions (`TryFrom` in the source) return
`Except Error _`.
-/

/-- Decidable equality on `Except`, for evaluating decode results on concrete
inputs. -/
instance {ε α : Type} [DecidableEq ε] [DecidableEq α] : DecidableEq (Except ε α) :=
  fun x y =>
    match x, y with
    | .error a, .error b =>
      if h : a = b then .isTrue (by rw [h]) else .isFalse (by simp [h])
    | .error _, .ok _ => .isFalse (by simp)
    | .ok _, .error _ => .isFalse (by simp)
    | .ok a, .ok b =>
      if h : a = b then .isTrue (by rw [h]) else .isFalse (by simp [h])

namespace Pupper

/-- Errors of `pupper::Error` (src/lib/lib.rs). -/
inductive Error where
  | undersized : Error
  | invalidMagic : List Nat → Error
  | unsupportedPackageVersion : Nat → Error
  | invalidSignatureKind : Nat → Error
  | missingDigest : Nat → Error
  | missingData : Nat → Error
deriving DecidableEq, Repr

/-- `pupper::SignatureKind` (src/lib/lib.rs). -/
inductive SignatureKind where
  | hmacSha1 : SignatureKind
  | hmacSha256 : SignatureKind
deriving DecidableEq, Repr

/-- `impl Default for SignatureKind`: HMAC-SHA1. -/
def SignatureKind.default : SignatureKind := .hmacSha1

/-- `impl TryFrom<u32> for SignatureKind`: 0 is HMAC-SHA1, 2 is HMAC-SHA256,
anything else is `InvalidSignatureKind`. -/
def SignatureKind.tryFromU32 (value : Nat) : Except Error SignatureKind :=
  match value with
  | 0 => .ok .hmacSha1
  | 2 => .ok .hmacSha256
  | _ => .error (.invalidSignatureKind value)

/-- `impl From<SignatureKind> for u32`. -/
def SignatureKind.toU32 : SignatureKind → Nat
  | .hmacSha1 => 0
  | .hmacSha256 => 2

/-- `Digest::SIZE` (0x14 = 20 bytes). -/
def digestSize : Nat := 0x14

/-- `Magic::SIZE` (8 bytes). -/
def magicSize : Nat := 0x08

/-- `Magic::default()`: the bytes of `b"SCEUF\0\0\0"`. -/
def magicBytes : List Nat := [0x53, 0x43, 0x45, 0x55, 0x46, 0x00, 0x00, 0x00]

/-- `Digest::default()`: twenty zero bytes. -/
def zeroDigest : List Nat := List.replicate digestSize 0

/-- `pupper::Segment` (src/lib/lib.rs). The `digest` field is private in the
source and is set to `Digest::default()` by `Segment::new`. -/
structure Segment where
  id : Nat
  sigKind : SignatureKind
  data : List Nat
  digest : List Nat
deriving DecidableEq, Repr

/-- `Segment::new`: the digest starts out as `Digest::default()`. -/
def Segment.new (id : Nat) (sigKind : SignatureKind) (data : List Nat) : Segment :=
  ⟨id, sigKind, data, zeroDigest⟩

/-- `pupper::Pup` (src/lib/lib.rs). -/
structure Pup where
  segments : List Segment
  imageVersion : Nat
deriving DecidableEq, Repr

/-- Big-endian serialization of a `w`-byte unsigned integer
(`u64::to_be_bytes` / `u32::to_be_bytes`), truncating modulo `2^(8*w)`. -/
def toBe : Nat → Nat → List Nat
  | 0, _ => []
  | w + 1, v => toBe w (v / 256) ++ [v % 256]

/-- Big-endian deserialization (`u64::from_be_bytes` / `u32::from_be_bytes`). -/
def fromBe (l : List Nat) : Nat :=
  l.foldl (fun acc b => acc * 256 + b) 0

/-- `pup::header::meta::Metadata` (src/lib/header/meta.rs). -/
structure Metadata where
  imgVersion : Nat
  segCount : Nat
  headerSize : Nat
  dataSize : Nat
deriving DecidableEq, Repr

/-- `Metadata::SIZE` (0x30 bytes). -/
def metadataSize : Nat := 0x30

/-- `Metadata::PKG_VERSION` (the only supported package version). -/
def pkgVersion : Nat := 1

/-- `impl TryFrom<&[u8; Metadata::SIZE]> for Metadata` (src/lib/header/meta.rs):
check the magic, then the big-endian package version, then read the four
remaining big-endian u64 fields. -/
def Metadata.tryFromBytes (data : List Nat) : Except Error Metadata :=
  let magic := (data.drop 0x00).take 0x08
  if magic ≠ magicBytes then
    .error (.invalidMagic magic)
  else
    let pkg := fromBe ((data.drop 0x08).take 0x08)
    if pkg ≠ pkgVersion then
      .error (.unsupportedPackageVersion pkg)
    else
      .ok { imgVersion := fromBe ((data.drop 0x10).take 0x08)
            segCount := fromBe ((data.drop 0x18).take 0x08)
            headerSize := fromBe ((data.drop 0x20).take 0x08)
            dataSize := fromBe ((data.drop 0x28).take 0x08) }

/-- `impl From<Metadata> for [u8; Metadata::SIZE]` (src/lib/header/meta.rs). -/
def Metadata.toBytes (meta : Metadata) : List Nat :=
  magicBytes ++ toBe 8 pkgVersion ++ toBe 8 meta.imgVersion ++
    toBe 8 meta.segCount ++ toBe 8 meta.headerSize ++ toBe 8 meta.dataSize

/-- `header::seg::Entry` (src/lib/header/seg.rs): a location-table entry. -/
structure SegEntry where
  id : Nat
  offset : Nat
  size : Nat
  sigKind : SignatureKind
deriving DecidableEq, Repr

/-- `seg::Entry::SIZE` (0x20 bytes). -/
def segEntrySize : Nat := 0x20

/-- `impl TryFrom<&[u8; Entry::SIZE]> for Entry` (src/lib/header/seg.rs).
The source's leading `data.len() < Self::SIZE` check is kept verbatim even
though a fixed-size array can never fail it. -/
def SegEntry.tryFromBytes (data : List Nat) : Except Error SegEntry :=
  if data.length < segEntrySize then
    .error .undersized
  else do
    let sigKind ← SignatureKind.tryFromU32 (fromBe ((data.drop 0x18).take 0x04))
    .ok { id := fromBe ((data.drop 0x00).take 0x08)
          offset := fromBe ((data.drop 0x08).take 0x08)
          size := fromBe ((data.drop 0x10).take 0x08)
          sigKind := sigKind }

/-- `impl From<Entry> for [u8; Entry::SIZE]` (src/lib/header/seg.rs): the four
fields big-endian; bytes 0x1C..0x20 stay zero. -/
def SegEntry.toBytes (entry : SegEntry) : List Nat :=
  toBe 8 entry.id ++ toBe 8 entry.offset ++ toBe 8 entry.size ++
    toBe 4 entry.sigKind.toU32 ++ [0, 0, 0, 0]

/-- `header::digest::Entry` (src/lib/header/digest.rs): a digest-table entry. -/
structure DigestEntry where
  segIndex : Nat
  digest : List Nat
deriving DecidableEq, Repr

/-- `digest::Entry::SIZE` (0x20 bytes). -/
def digestEntrySize : Nat := 0x20

/-- `impl TryFrom<&[u8; Entry::SIZE]> for Entry` (src/lib/header/digest.rs):
never fails. -/
def DigestEntry.tryFromBytes (data : List Nat) : Except Error DigestEntry :=
  .ok { segIndex := fromBe ((data.drop 0x00).take 0x08)
        digest := (data.drop 0x08).take digestSize }

/-- `impl From<Entry> for [u8; Entry::SIZE]` (src/lib/header/digest.rs): the
index big-endian, the digest bytes, then four zero bytes. -/
def DigestEntry.toBytes (entry : DigestEntry) : List Nat :=
  toBe 8 entry.segIndex ++ entry.digest ++ [0, 0, 0, 0]

/-- Fuel-indexed worker for `chunksExact`; the fuel is an upper bound on the
number of chunks still producible, so it never runs out. -/
def chunksExactGo (sz : Nat) : Nat → List Nat → List (List Nat)
  | 0, _ => []
  | fuel + 1, data =>
    if 0 < sz ∧ sz ≤ data.length then
      data.take sz :: chunksExactGo sz fuel (data.drop sz)
    else
      []

/-- `slice::chunks_exact`: the maximal list of consecutive chunks of length
`sz`; a trailing remainder shorter than `sz` is not produced. -/
def chunksExact (sz : Nat) (data : List Nat) : List (List Nat) :=
  chunksExactGo sz data.length data

/-- `impl TryFrom<&[u8]> for Table<seg::Entry>` (src/lib/header/table.rs):
`chunks_exact` over the slice, then `flat_map` of the per-entry `TryFrom`,
which silently drops entries whose conversion fails.  The source always
returns `Ok`. -/
def segTableTryFrom (data : List Nat) : Except Error (List SegEntry) :=
  .ok ((chunksExact segEntrySize data).filterMap
    fun chunk => (SegEntry.tryFromBytes chunk).toOption)

/-- `impl TryFrom<&[u8]> for Table<digest::Entry>` (src/lib/header/table.rs),
instantiated at digest entries. -/
def digestTableTryFrom (data : List Nat) : Except Error (List DigestEntry) :=
  .ok ((chunksExact digestEntrySize data).filterMap
    fun chunk => (DigestEntry.tryFromBytes chunk).toOption)

/-- `pup::header::Header` (src/lib/header.rs). -/
structure Header where
  meta : Metadata
  segTable : List SegEntry
  digestTable : List DigestEntry
  headerDigest : List Nat
deriving DecidableEq, Repr

/-- `impl TryFrom<&[u8]> for Header` (src/lib/header.rs): metadata, segment
table (`seg_count` entries), digest table (`seg_count` entries), then the
header digest, each region guarded by an `Undersized` length check. -/
def Header.tryFrom (data : List Nat) : Except Error Header := do
  if data.length < metadataSize then
    throw Error.undersized
  let meta ← Metadata.tryFromBytes (data.take metadataSize)
  let rest := data.drop metadataSize
  let segTableSize := meta.segCount * segEntrySize
  if rest.length < segTableSize then
    throw Error.undersized
  let segTable ← segTableTryFrom (rest.take segTableSize)
  let rest := rest.drop segTableSize
  let digestTableSize := meta.segCount * digestEntrySize
  if rest.length < digestTableSize then
    throw Error.undersized
  let digestTable ← digestTableTryFrom (rest.take digestTableSize)
  let rest := rest.drop digestTableSize
  if rest.length < digestSize then
    throw Error.undersized
  .ok { meta := meta
        segTable := segTable
        digestTable := digestTable
        headerDigest := rest.take digestSize }

/-- `Pup::header_size` (src/lib/lib.rs), repeated verbatim inside
`impl From<&Pup> for Metadata` (src/lib/header/meta.rs): metadata size plus
one location entry and one digest entry per segment plus the trailing digest
size, then `header_size += header_size % 0x10`. -/
def Pup.headerSize (pup : Pup) : Nat :=
  let base := metadataSize + pup.segments.length * segEntrySize +
    pup.segments.length * digestEntrySize + digestSize
  base + base % 0x10

/-- `Pup::data_size` (src/lib/lib.rs): the sum of all segment data lengths. -/
def Pup.dataSize (pup : Pup) : Nat :=
  (pup.segments.map fun s => s.data.length).sum

/-- `impl From<&Pup> for Metadata` (src/lib/header/meta.rs). -/
def Metadata.fromPup (pup : Pup) : Metadata :=
  { imgVersion := pup.imageVersion
    segCount := pup.segments.length
    headerSize := pup.headerSize
    dataSize := pup.dataSize }

/-- Helper for `impl From<&Pup> for Table<seg::Entry>` (src/lib/header/seg.rs):
entries are laid out consecutively, the running offset starting at the header
size and advancing by each segment's data length. -/
def segEntriesFrom (offset : Nat) : List Segment → List SegEntry
  | [] => []
  | s :: rest =>
    ⟨s.id, offset, s.data.length, s.sigKind⟩ :: segEntriesFrom (offset + s.data.length) rest

/-- `impl From<&Pup> for Table<seg::Entry>` (src/lib/header/seg.rs). -/
def segTableFromPup (pup : Pup) : List SegEntry :=
  segEntriesFrom pup.headerSize pup.segments

/-- `impl From<&Pup> for Table<digest::Entry>` (src/lib/header/digest.rs):
the source ignores the `Pup` and returns `Self::default()`, the empty table. -/
def digestTableFromPup (_pup : Pup) : List DigestEntry :=
  []

/-- `impl From<&Pup> for Header` (src/lib/header.rs), with
`header_digest: Digest::default()` from `Header::new`. -/
def Header.fromPup (pup : Pup) : Header :=
  { meta := Metadata.fromPup pup
    segTable := segTableFromPup pup
    digestTable := digestTableFromPup pup
    headerDigest := zeroDigest }

/-- `Vec::resize_with(n, Default::default)` on a byte vector: truncate to `n`
or extend with zeros up to `n`. -/
def resizeWithZero (l : List Nat) (n : Nat) : List Nat :=
  l.take n ++ List.replicate (n - l.length) 0

/-- `impl From<&Header> for Vec<u8>` (src/lib/header.rs): metadata bytes, both
tables, the header digest, padded (`resize_with`) to `meta.header_size`. -/
def Header.toBytes (header : Header) : List Nat :=
  resizeWithZero
    (header.meta.toBytes ++ (header.segTable.map SegEntry.toBytes).flatten ++
      (header.digestTable.map DigestEntry.toBytes).flatten ++ header.headerDigest)
    header.meta.headerSize

/-- `data[start..end].copy_from_slice(src)` with `end = start + src.len()`:
splice `src` into the buffer at `start`. -/
def writeAt (buf : List Nat) (start : Nat) (src : List Nat) : List Nat :=
  buf.take start ++ src ++ buf.drop (start + src.length)

/-- `impl From<&Pup> for Vec<u8>` (src/lib/lib.rs): serialize the derived
header, resize to `header_size + data_size`, then copy each segment's data to
the offset recorded in its location entry. -/
def Pup.toBytes (pup : Pup) : List Nat :=
  let header := Header.fromPup pup
  let base := resizeWithZero (Header.toBytes header)
    (header.meta.headerSize + header.meta.dataSize)
  (header.segTable.zip pup.segments).foldl
    (fun buf pair => writeAt buf pair.1.offset pair.2.data) base

/-- `data.get(start..end)`: `some` slice when the range lies inside the
buffer, `none` otherwise. -/
def sliceGet (data : List Nat) (start stop : Nat) : Option (List Nat) :=
  if start ≤ stop ∧ stop ≤ data.length then
    some ((data.drop start).take (stop - start))
  else
    none

/-- The per-segment closure of `impl TryFrom<&[u8]> for Pup` (src/lib/lib.rs):
look up the digest entry whose `seg_index` equals the location-table index,
then slice the data range `offset .. offset + size` out of the input buffer. -/
def buildSegment (data : List Nat) (digestTable : List DigestEntry)
    (i : Nat) (entry : SegEntry) : Except Error Segment :=
  match digestTable.find? (fun x => x.segIndex == i) with
  | none => .error (.missingDigest i)
  | some d =>
    match sliceGet data entry.offset (entry.offset + entry.size) with
    | none => .error (.missingData i)
    | some bytes => .ok ⟨entry.id, entry.sigKind, bytes, d.digest⟩

/-- Worker for `segmentsFromTables`, carrying the `enumerate` index. -/
def segmentsFromTablesGo (data : List Nat) (digestTable : List DigestEntry)
    (i : Nat) : List SegEntry → List Segment
  | [] => []
  | entry :: rest =>
    match (buildSegment data digestTable i entry).toOption with
    | none => segmentsFromTablesGo data digestTable (i + 1) rest
    | some s => s :: segmentsFromTablesGo data digestTable (i + 1) rest

/-- The segment-generation loop of `impl TryFrom<&[u8]> for Pup`
(src/lib/lib.rs): `flat_map` over the enumerated location table collects the
`Ok` segments and silently drops every `Err`. -/
def segmentsFromTables (data : List Nat) (segTable : List SegEntry)
    (digestTable : List DigestEntry) : List Segment :=
  segmentsFromTablesGo data digestTable 0 segTable

/-- `impl TryFrom<&[u8]> for Pup` (src/lib/lib.rs). -/
def Pup.tryFrom (data : List Nat) : Except Error Pup := do
  let header ← Header.tryFrom data
  .ok { segments := segmentsFromTables data header.segTable header.digestTable
        imageVersion := header.meta.imgVersion }

end Pupper

open Pupper

set_option maxRecDepth 1000000

/-- The bytes of `b"hello"`. -/
def helloBytes : List Nat := [0x68, 0x65, 0x6C, 0x6C, 0x6F]

/-- The spec's worked example: one segment, id 0x100, data `b"hello"`,
HMAC-SHA1, image version 0xAAAA_BBBB. -/
def examplePup : Pup :=
  ⟨[Segment.new 0x100 .hmacSha1 helloBytes], 0xAAAABBBB⟩

/-- A package with two segments, used to exercise the round-trip. -/
def twoSegPup : Pup :=
  ⟨[Segment.new 0x100 .hmacSha1 [1], Segment.new 0x200 .hmacSha256 [2, 3]],
    0xAAAABBBB⟩

/-- A hand-built buffer: valid metadata with one segment, one location entry,
but the sole digest-table entry carries `seg_index = 1`, so no digest entry
has `seg_index = 0`. -/
def missingDigestBuf : List Nat :=
  Metadata.toBytes ⟨5, 1, 0, 0⟩ ++ SegEntry.toBytes ⟨7, 0x84, 0, .hmacSha1⟩ ++
    DigestEntry.toBytes ⟨1, zeroDigest⟩ ++ zeroDigest

/-- A hand-built buffer: valid metadata with one segment and a matching digest
entry, but the location entry's `offset + size` (0x1000 + 5) exceeds the
buffer length (0x84). -/
def outOfBoundsBuf : List Nat :=
  Metadata.toBytes ⟨5, 1, 0, 0⟩ ++ SegEntry.toBytes ⟨7, 0x1000, 5, .hmacSha1⟩ ++
    DigestEntry.toBytes ⟨0, zeroDigest⟩ ++ zeroDigest

/-- A location-entry byte window whose signature-kind code (bytes 0x18..0x1C)
is 1, which is neither HMAC-SHA1's code 0 nor HMAC-SHA256's code 2. -/
def badSigKindEntryBytes : List Nat :=
  toBe 8 7 ++ toBe 8 0x84 ++ toBe 8 0 ++ toBe 4 1 ++ [0, 0, 0, 0]

/-- A hand-built buffer: valid metadata with one segment whose location entry
carries the unknown signature-kind code 1. -/
def badSigKindBuf : List Nat :=
  Metadata.toBytes ⟨5, 1, 0, 0⟩ ++ badSigKindEntryBytes ++
    DigestEntry.toBytes ⟨0, zeroDigest⟩ ++ zeroDigest

/-- C1: the round-trip claim `decode(encode(P)) = Ok(P)` fails on the code:
encoding writes an empty digest table, decoding then reads the digest-table
region out of the header digest and padding (all zero bytes, hence every
decoded digest entry has `seg_index = 0`), and every segment past index 0 is
silently dropped by the `flat_map` over per-segment `Result`s.  For the
two-segment package, decode of encode yields a one-segment package. -/
theorem c1_round_trip_drops_segments :
    Pup.tryFrom (Pup.toBytes twoSegPup) =
      .ok ⟨[Segment.new 0x100 .hmacSha1 [1]], 0xAAAABBBB⟩ ∧
    Pup.tryFrom (Pup.toBytes twoSegPup) ≠ .ok twoSegPup := by
  constructor
  · decide
  · decide

/-- C2: a buffer whose digest table lacks an entry with `seg_index = 0` for
location-table index 0 does not fail with `MissingDigest(0)`: the error is
swallowed by the `flat_map` over per-segment `Result`s and decode succeeds
with the segment silently omitted. -/
theorem c2_missing_digest_error_swallowed :
    Pup.tryFrom missingDigestBuf = .ok ⟨[], 5⟩ ∧
    Pup.tryFrom missingDigestBuf ≠ .error (.missingDigest 0) := by
  constructor
  · decide
  · decide

/-- C3: a buffer whose location entry has `offset + size` beyond the buffer
length does not fail with `MissingData(0)`: the error is swallowed by the
`flat_map` over per-segment `Result`s and decode succeeds with the segment
silently omitted. -/
theorem c3_missing_data_error_swallowed :
    Pup.tryFrom outOfBoundsBuf = .ok ⟨[], 5⟩ ∧
    Pup.tryFrom outOfBoundsBuf ≠ .error (.missingData 0) := by
  constructor
  · decide
  · decide

/-- C4: the derived header size is never a multiple of 16.  The code computes
`size + size % 0x10`, not a round-up: the exact sum is 0x44 + 0x40·N, whose
remainder mod 16 is always 4, so the result is always ≡ 8 (mod 16).  In
particular the one-segment example yields 0x88, not the claimed 0x90. -/
theorem c4_header_size_never_multiple_of_16 :
    (∀ p : Pup, p.headerSize % 0x10 = 8) ∧ examplePup.headerSize = 0x88 := by
  constructor
  · intro p
    simp only [Pup.headerSize, metadataSize, segEntrySize, digestEntrySize, digestSize]
    omega
  · decide

/-- C5: on the spec's worked example the code produces header size 0x88 (not
0x90), an encoded buffer of 0x8D bytes (not 0x95), and a location entry with
offset 0x88 (not 0x90) and size 5; decoding the encoded buffer does reproduce
the package (id 0x100 and payload `b"hello"`). -/
theorem c5_example_sizes_and_offsets :
    (Header.fromPup examplePup).meta.headerSize = 0x88 ∧
    (Pup.toBytes examplePup).length = 0x8D ∧
    segTableFromPup examplePup = [⟨0x100, 0x88, 5, .hmacSha1⟩] ∧
    Pup.tryFrom (Pup.toBytes examplePup) = .ok examplePup := by
  refine ⟨by decide, by decide, by decide, by decide⟩

/-- C6: table decode of a slice whose length is not a multiple of the entry
size does not fail with `Undersized`: a one-byte slice decodes to the empty
table, and a slice of one whole location entry plus one trailing byte decodes
to the one entry with the trailing partial chunk silently dropped. -/
theorem c6_partial_chunk_silently_dropped :
    digestTableTryFrom [0] = .ok [] ∧
    digestTableTryFrom [0] ≠ .error .undersized ∧
    segTableTryFrom (SegEntry.toBytes ⟨7, 1, 2, .hmacSha1⟩ ++ [9]) =
      .ok [⟨7, 1, 2, .hmacSha1⟩] := by
  refine ⟨by decide, by decide, by decide⟩

/-- C7: a location entry with the unknown signature-kind code 1 makes the
entry-level conversion fail with `InvalidSignatureKind(1)`, but the whole
parse does not fail: the table `flat_map` drops the entry and decode succeeds
with a package from which that entry is silently omitted. -/
theorem c7_invalid_sig_kind_entry_dropped :
    SegEntry.tryFromBytes badSigKindEntryBytes = .error (.invalidSignatureKind 1) ∧
    Pup.tryFrom badSigKindBuf = .ok ⟨[], 5⟩ ∧
    Pup.tryFrom badSigKindBuf ≠ .error (.invalidSignatureKind 1) := by
  refine ⟨by decide, by decide, by decide⟩

/-- C8: metadata decode checks the magic first and the package version
second: on a 0x30-byte window, a wrong magic fails with `InvalidMagic` of the
actual first 8 bytes; a good magic with big-endian package version ≠ 1 fails
with `UnsupportedPackageVersion` of the actual value; and with both good the
decode succeeds with the four remaining big-endian u64 fields. -/
theorem c8_metadata_check_order (data : List Nat) (_hlen : data.length = 0x30) :
    (data.take 8 ≠ magicBytes →
      Metadata.tryFromBytes data = .error (.invalidMagic (data.take 8))) ∧
    (data.take 8 = magicBytes → fromBe ((data.drop 8).take 8) ≠ 1 →
      Metadata.tryFromBytes data =
        .error (.unsupportedPackageVersion (fromBe ((data.drop 8).take 8)))) ∧
    (data.take 8 = magicBytes → fromBe ((data.drop 8).take 8) = 1 →
      Metadata.tryFromBytes data =
        .ok ⟨fromBe ((data.drop 0x10).take 8), fromBe ((data.drop 0x18).take 8),
             fromBe ((data.drop 0x20).take 8), fromBe ((data.drop 0x28).take 8)⟩) := by
  refine ⟨?_, ?_, ?_⟩
  · intro h1
    simp [Metadata.tryFromBytes, h1]
  · intro h1 h2
    simp [Metadata.tryFromBytes, pkgVersion, h1, h2]
  · intro h1 h2
    simp [Metadata.tryFromBytes, pkgVersion, h1, h2]

/-- C8 witness: the all-zero 0x30-byte window fails with `InvalidMagic` of
its first 8 bytes. -/
theorem c8_metadata_check_order_witness :
    Metadata.tryFromBytes (List.replicate 0x30 0) =
      .error (.invalidMagic ((List.replicate 0x30 0).take 8)) :=
  (c8_metadata_check_order (List.replicate 0x30 0) (by decide)).1 (by decide)

/-- C9: digest lookup is by the stored `seg_index` field, not by digest-table
position: with the digest entries stored in reverse order (position 0 holds
`seg_index = 1` with digest `dA`, position 1 holds `seg_index = 0` with
digest `dB`), segment 0 receives `dB` and segment 1 receives `dA`, each with
its own location entry's data range. -/
theorem c9_digest_lookup_by_seg_index (data : List Nat) (e0 e1 : SegEntry)
    (dA dB : List Nat)
    (h0 : e0.offset + e0.size ≤ data.length)
    (h1 : e1.offset + e1.size ≤ data.length) :
    segmentsFromTables data [e0, e1] [⟨1, dA⟩, ⟨0, dB⟩] =
      [⟨e0.id, e0.sigKind, (data.drop e0.offset).take e0.size, dB⟩,
       ⟨e1.id, e1.sigKind, (data.drop e1.offset).take e1.size, dA⟩] := by
  simp [segmentsFromTables, segmentsFromTablesGo, buildSegment, List.find?,
    sliceGet, Nat.le_add_right, h0, h1, Except.toOption]

/-- C9 witness: a concrete 16-byte buffer and two concrete location entries
with reversed digest-table storage order. -/
theorem c9_digest_lookup_by_seg_index_witness :
    segmentsFromTables (List.replicate 16 1) [⟨7, 2, 3, .hmacSha1⟩, ⟨8, 5, 4, .hmacSha256⟩]
      [⟨1, List.replicate 20 0xAA⟩, ⟨0, List.replicate 20 0xBB⟩] =
      [⟨7, .hmacSha1, ((List.replicate 16 1).drop 2).take 3, List.replicate 20 0xBB⟩,
       ⟨8, .hmacSha256, ((List.replicate 16 1).drop 5).take 4, List.replicate 20 0xAA⟩] :=
  c9_digest_lookup_by_seg_index (List.replicate 16 1) ⟨7, 2, 3, .hmacSha1⟩
    ⟨8, 5, 4, .hmacSha256⟩ (List.replicate 20 0xAA) (List.replicate 20 0xBB)
    (by decide) (by decide)

/-- C10: for every package, the digest table derived during encoding is
empty, so its byte serialization contributes nothing to the encoded buffer,
even though the derived header size still accounts for one digest entry per
segment (the exact sum below is a lower bound of it). -/
theorem c10_derived_digest_table_empty (p : Pup) :
    (Header.fromPup p).digestTable = [] ∧
    ((Header.fromPup p).digestTable.map DigestEntry.toBytes).flatten = [] ∧
    metadataSize + p.segments.length * segEntrySize +
        p.segments.length * digestEntrySize + digestSize ≤
      (Metadata.fromPup p).headerSize := by
  refine ⟨rfl, rfl, ?_⟩
  simp only [Metadata.fromPup, Pup.headerSize, metadataSize, segEntrySize,
    digestEntrySize, digestSize]
  omega
